import Mathlib

/-!
Verification of the Kraz chat client (terminal-styled chat with public channel,
access-key-protected rooms and an inline assistant).

The repository carries two App variants concatenated in `src/App.tsx`:
a Supabase-backed one and a mock-backed one using `src/services/mockBackend.ts`.
Definitions below are shallow embeddings of those sources: the in-memory stores
become explicit list-valued state, thrown `Error(...)` values become
`Except String`, and the nondeterministic generators (`Math.random`-derived id
and key strings, `new Date().toISOString()` timestamps) become explicit string
parameters carrying the values the generators produced.
-/

namespace Kraz

/-- Message record, from the `Message` interface in `src/types.ts`:
`room_id = none` models the JS value `null` (public channel). -/
structure Message where
  id : String
  user_id : String
  username : String
  content : String
  created_at : String
  room_id : Option String
  is_ai : Bool := false
  isSystem : Bool := false
deriving Repr, DecidableEq

/-- Room record, from the `Room` interface in `src/types.ts`. -/
structure Room where
  id : String
  key : String
  name : String
  creator_id : String
  created_at : String
deriving Repr, DecidableEq

/-- User record, from the `User` interface in `src/types.ts`
(`username?: string` becomes an `Option`; fields the claims never touch are
omitted). -/
structure User where
  id : String
  username : Option String := none
deriving Repr, DecidableEq

/-- Chat events broadcast by the mock backend, from the `ChatEvent` union in
`src/types.ts`. The delete event's `roomId` field is genuinely named `roomId`
there (unlike the `room_id` field of `Message`). -/
inductive ChatEvent where
  | newMessage (message : Message)
  | deleteMessage (messageId : String) (roomId : Option String)
deriving Repr, DecidableEq

/-- JS truthiness of a `string | null | undefined` value: `null`, `undefined`
and the empty string are falsy. Used to embed guards such as
`!m.room_id` in `mockBackend.ts`. -/
def jsTruthy : Option String → Bool
  | none => false
  | some s => s ≠ ""

/-- JS `String.prototype.toUpperCase`, character by character (the keys and
ids of this program are ASCII alphanumerics, where this agrees with JS). -/
def jsToUpperCase (s : String) : String := ⟨s.data.map Char.toUpper⟩

/-- JS `String.prototype.toLowerCase`, character by character. -/
def jsToLowerCase (s : String) : String := ⟨s.data.map Char.toLower⟩

/-- JS `String.prototype.trim`: strip leading and trailing whitespace. -/
def jsTrim (s : String) : String :=
  ⟨((s.data.dropWhile Char.isWhitespace).reverse.dropWhile Char.isWhitespace).reverse⟩

/-- JS `String.prototype.startsWith`. -/
def jsStartsWith (s pre : String) : Bool := pre.data.isPrefixOf s.data

/-- JS `String.prototype.substring(0, n)`: the first `n` characters. -/
def jsSubstringTo (s : String) (n : Nat) : String := ⟨s.data.take n⟩

/-- RoomService.createRoom from `src/services/mockBackend.ts` lines 90-100.
`genId` is the string produced by `generateId()` (the room id is `RM-` plus its
first six characters, via `.substring(0, 6)`), `genKey` the one produced by
`generateKey()`, and `now` the `new Date().toISOString()` timestamp. The
source performs no validation of `name`; it always pushes the new room. -/
def createRoom (rooms : List Room) (genId genKey : String)
    (creatorId name now : String) : Room × List Room :=
  let newRoom : Room :=
    { id := "RM-" ++ jsSubstringTo genId 6
      key := genKey
      creator_id := creatorId
      name := name
      created_at := now }
  (newRoom, rooms ++ [newRoom])

/-- RoomService.updateRoomKey from `src/services/mockBackend.ts` lines 110-117:
`rooms.find(r => r.id === roomId)` locates the first room with the given id;
a missing room throws `ROOM_NOT_FOUND`, a requester other than the creator
throws `UNAUTHORIZED`, and otherwise the found room's `key` field is mutated in
place (embedded as rebuilding the list with only that entry's key replaced)
and the updated room is returned. -/
def updateRoomKey : List Room → String → String → String →
    Except String (Room × List Room)
  | [], _, _, _ => .error "ROOM_NOT_FOUND"
  | r :: rs, roomId, userId, newKey =>
    if r.id = roomId then
      if r.creator_id ≠ userId then .error "UNAUTHORIZED"
      else .ok ({ r with key := newKey }, { r with key := newKey } :: rs)
    else
      (updateRoomKey rs roomId userId newKey).map fun p => (p.1, r :: p.2)

/-- Room store resulting from a call to `updateRoomKey`: a thrown error leaves
the in-memory `rooms` array untouched, a successful call installs the mutated
list. -/
def updateRoomKeyStore (rooms : List Room) (roomId userId newKey : String) :
    List Room :=
  match updateRoomKey rooms roomId userId newKey with
  | .ok p => p.2
  | .error _ => rooms

/-- RoomService.validateRoomAccess from `src/services/mockBackend.ts` lines
119-122: `room ? room.key === key.toUpperCase() : false`. Note the supplied
key is uppercased by the controller before the comparison. -/
def validateRoomAccess (rooms : List Room) (roomId key : String) : Bool :=
  match rooms.find? (fun r => r.id == roomId) with
  | some room => room.key == jsToUpperCase key
  | none => false

/-- ChatService.getPublicMessages from `src/services/mockBackend.ts` line 126:
`allMessages.filter(m => !m.room_id)` (JS truthiness on `room_id`). -/
def getPublicMessages (msgs : List Message) : List Message :=
  msgs.filter fun m => !jsTruthy m.room_id

/-- ChatService.getRoomMessages from `src/services/mockBackend.ts` line 128:
`allMessages.filter(m => m.room_id === roomId)`. -/
def getRoomMessages (msgs : List Message) (roomId : String) : List Message :=
  msgs.filter fun m => m.room_id == some roomId

/-- Sender argument of ChatService.sendPublicMessage, which accepts
`User | string` (duck-typed in the source, resolved by `typeof` checks). -/
inductive Sender where
  | str (s : String)
  | user (u : User)
deriving Repr, DecidableEq

/-- Sender id resolution in sendPublicMessage:
`typeof sender === 'string' ? sender : sender.id`. -/
def Sender.senderId : Sender → String
  | .str s => s
  | .user u => u.id

/-- Display-name resolution in sendPublicMessage:
`typeof sender === 'string' ? sender : (sender.username || sender.id)`
(JS `||` falls through on `undefined` and the empty string). -/
def Sender.displayName : Sender → String
  | .str s => s
  | .user u =>
    match u.username with
    | some n => if n = "" then u.id else n
    | none => u.id

/-- ChatService.sendPublicMessage from `src/services/mockBackend.ts` lines
138-157: builds a message with `room_id: null`, pushes it onto the store and
notifies listeners with a `NEW_MESSAGE` event. `freshId` is the value of
`generateId()` and `now` the ISO timestamp. -/
def sendPublicMessage (msgs : List Message) (sender : Sender)
    (content : String) (isAi : Bool) (freshId now : String) :
    Message × List Message × ChatEvent :=
  let msg : Message :=
    { id := freshId
      user_id := sender.senderId
      username := sender.displayName
      content := content
      created_at := now
      is_ai := isAi
      isSystem := false
      room_id := none }
  (msg, msgs ++ [msg], .newMessage msg)

/-- ChatService.sendPrivateMessage from `src/services/mockBackend.ts` lines
159-173: like the public send but with `room_id: roomId` and no `is_ai`
argument (the field stays at its default). -/
def sendPrivateMessage (msgs : List Message) (sender : User)
    (content : String) (roomId : String) (freshId now : String) :
    Message × List Message × ChatEvent :=
  let msg : Message :=
    { id := freshId
      user_id := sender.id
      username := (Sender.user sender).displayName
      content := content
      created_at := now
      room_id := some roomId
      isSystem := false }
  (msg, msgs ++ [msg], .newMessage msg)

/-- ChatService.deleteMessage from `src/services/mockBackend.ts` lines
175-187: `findIndex` locates the first message with the given id; index `-1`
returns silently (no event, store untouched); a non-author throws
`UNAUTHORIZED_DELETE`; otherwise that one entry is spliced out and a
`DELETE_MESSAGE` event is emitted. The second component lists the events
emitted by the call. -/
def deleteMessage : List Message → String → String →
    Except String (List Message × List ChatEvent)
  | [], _, _ => .ok ([], [])
  | m :: ms, messageId, userId =>
    if m.id = messageId then
      if m.user_id ≠ userId then .error "UNAUTHORIZED_DELETE"
      else .ok (ms, [.deleteMessage messageId m.room_id])
    else
      (deleteMessage ms messageId userId).map fun p => (m :: p.1, p.2)

/-- Message store resulting from a call to `deleteMessage`: a thrown error
leaves the in-memory array untouched. -/
def deleteMessageStore (msgs : List Message) (messageId userId : String) :
    List Message :=
  match deleteMessage msgs messageId userId with
  | .ok p => p.1
  | .error _ => msgs

/-! ### Assistant bridge (`src/services/geminiService.ts`) -/

/-- Outcome of the raw `ai.models.generateContent` call: it either resolves
with the response's `text` field (possibly empty or absent, modelled as the
empty string) or rejects. -/
inductive GeminiOutcome where
  | success (text : String)
  | failure
deriving Repr, DecidableEq

/-- getGeminiResponse from `src/services/geminiService.ts` lines 12-31:
without a configured API key it returns a fixed configuration-error string;
otherwise the backend call's rejection is caught and converted into the fixed
diagnostic string, and a falsy `response.text` becomes `NO DATA RECEIVED`.
The function itself never throws. -/
def getGeminiResponse (hasKey : Bool) (outcome : GeminiOutcome)
    (_userMessage : String) : String :=
  if !hasKey then
    "Error: API Key not configured. Please add VITE_API_KEY to your environment variables."
  else
    match outcome with
    | .success t => if t = "" then "NO DATA RECEIVED" else t
    | .failure => "SYSTEM ERROR: UNABLE TO CONNECT TO AI CORE."

/-! ### Mock App handlers (`src/App.tsx`, mock variant) -/

/-- View states of the client UI, from `ViewState` in `src/types.ts`. -/
inductive ViewState where
  | auth
  | dashboard
  | publicChat
  | privateRoom
  | profile
deriving Repr, DecidableEq

/-- Replacement of the first occurrence of `pat` in a character list, as JS
`String.prototype.replace(string, string)` with an empty replacement does
(only the first match is replaced). -/
def replaceFirstChars (pat : List Char) : List Char → List Char
  | [] => []
  | c :: cs =>
    if pat.isPrefixOf (c :: cs) then (c :: cs).drop pat.length
    else c :: replaceFirstChars pat cs

/-- JS `content.replace(pat, '')`: drop the first occurrence of `pat`. -/
def stringReplaceFirst (s pat : String) : String :=
  ⟨replaceFirstChars pat.data s.data⟩

/-- handleSendMessage of the mock App (`src/App.tsx` lines 808-829): an empty
trimmed input or a missing user is a no-op; in the Public view the user's
message is sent, and if the lowercased content starts with `/ai` the prompt is
forwarded to `getGeminiResponse` and its reply is republished as a public
message from the string sender `AI_CORE` with `isAi = true`; in a private room
only a private message is sent. Returns the resulting store and the list of
events emitted. `hasKey`/`outcome` describe the assistant backend environment;
`idUser`/`idAi` are the generated message ids and `nowUser`/`nowAi` the
timestamps. The function is total: no branch throws, matching the source,
where `getGeminiResponse` catches the backend failure internally. -/
def handleSendMessage (view : ViewState) (activeRoom : Option Room)
    (user : Option User) (messageInput : String) (msgs : List Message)
    (hasKey : Bool) (outcome : GeminiOutcome)
    (idUser idAi nowUser nowAi : String) : List Message × List ChatEvent :=
  match user with
  | none => (msgs, [])
  | some u =>
    let content := jsTrim messageInput
    if content = "" then (msgs, [])
    else
      match view, activeRoom with
      | .publicChat, _ =>
        let r1 := sendPublicMessage msgs (.user u) content false idUser nowUser
        if jsStartsWith (jsToLowerCase content) "/ai" then
          let prompt := jsTrim (stringReplaceFirst content "/ai")
          let aiResponse := getGeminiResponse hasKey outcome prompt
          let r2 := sendPublicMessage r1.2.1 (.str "AI_CORE") aiResponse true idAi nowAi
          (r2.2.1, [r1.2.2, r2.2.2])
        else (r1.2.1, [r1.2.2])
      | .privateRoom, some room =>
        let r := sendPrivateMessage msgs u content room.id idUser nowUser
        (r.2.1, [r.2.2])
      | _, _ => (msgs, [])

/-- handleCreateRoom of the mock App (`src/App.tsx` lines 746-751): a missing
user or an input that trims to the empty string makes the handler return
without calling the service (no room is persisted, no error is surfaced);
otherwise `RoomService.createRoom` is called with the trimmed name. -/
def handleCreateRoom (user : Option User) (roomNameInput : String)
    (rooms : List Room) (genId genKey now : String) : List Room :=
  match user with
  | none => rooms
  | some u =>
    if jsTrim roomNameInput = "" then rooms
    else (createRoom rooms genId genKey u.id (jsTrim roomNameInput) now).2

/-- Live views held by the mock App: `publicMessages` and `privateMessages`
state. -/
structure MockViews where
  publicMessages : List Message
  privateMessages : List Message
deriving Repr, DecidableEq

/-- JS property access `msg.roomId` on a `Message` value of the mock backend.
The `Message` interface in `src/types.ts` declares the field `room_id`, and
`mockBackend.ts` populates `room_id`; no `roomId` property exists on these
objects, so the access evaluates to `undefined` (embedded as `none`)
regardless of the message's actual `room_id`. -/
def Message.jsPropRoomId (_ : Message) : Option String := none

/-- Subscription handler of the mock App (`src/App.tsx` lines 663-681),
with `activeRoomRef` the current value of `activeRoomRef.current`
(`null` or a room id). For `NEW_MESSAGE` it branches on `!msg.roomId`
(see `Message.jsPropRoomId`) and appends to the public or the active room's
private view; for `DELETE_MESSAGE` it branches on the event's `roomId` field
and filters the corresponding view. In the `NEW_MESSAGE` else-branch the JS
comparison `activeRoomRef.current === msg.roomId` compares against
`undefined`, which is never strictly equal to `null` or a string; that branch
is unreachable anyway because `msg.roomId` is always falsy. -/
def mockSubscribeHandler (activeRoomRef : Option String) (views : MockViews) :
    ChatEvent → MockViews
  | .newMessage msg =>
    if !jsTruthy msg.jsPropRoomId then
      { views with publicMessages := views.publicMessages ++ [msg] }
    else
      if activeRoomRef = msg.jsPropRoomId then
        { views with privateMessages := views.privateMessages ++ [msg] }
      else views
  | .deleteMessage messageId roomId =>
    if !jsTruthy roomId then
      { views with
          publicMessages := views.publicMessages.filter fun m => m.id ≠ messageId }
    else
      if activeRoomRef = roomId then
        { views with
            privateMessages := views.privateMessages.filter fun m => m.id ≠ messageId }
      else views

/-! ### Supabase App snapshot fetch and realtime handlers (`src/App.tsx`,
Supabase variant) -/

/-- Scope of the Live View: the public channel or one specific room. -/
inductive Scope where
  | publicChat
  | privateRoom (roomId : String)
deriving Repr, DecidableEq

/-- Row filter applied by `fetchMessages` (`src/App.tsx` lines 207-220):
`query.is('room_id', null)` for the public view, `query.eq('room_id', id)`
for a room view. -/
def scopeFilter : Scope → Message → Bool
  | .publicChat, m => m.room_id == none
  | .privateRoom rid, m => m.room_id == some rid

/-- Comparison used by the `order('created_at', { ascending: true })` clause:
non-decreasing ISO-8601 timestamp strings. Embedded as the lexicographic order
on the strings' character lists, which coincides with the string order the
database applies to ASCII timestamps. -/
def createdLE (a b : Message) : Prop := a.created_at.data ≤ b.created_at.data

/-- Strict version of `createdLE`, for stating the spec's "strict ascending
`created_at` order". -/
def createdLT (a b : Message) : Prop := a.created_at.data < b.created_at.data

instance : DecidableRel createdLE := fun a b =>
  inferInstanceAs (Decidable (a.created_at.data ≤ b.created_at.data))

instance : DecidableRel createdLT := fun a b =>
  inferInstanceAs (Decidable (a.created_at.data < b.created_at.data))

instance : IsTotal Message createdLE :=
  ⟨fun a b => le_total a.created_at.data b.created_at.data⟩

instance : IsTrans Message createdLE := ⟨fun _ _ _ h h2 => le_trans h h2⟩

instance : DecidableEq (Except String (Room × List Room)) := fun a b =>
  match a, b with
  | .ok x, .ok y => decidable_of_iff (x = y) (by simp)
  | .error e, .error f => decidable_of_iff (e = f) (by simp)
  | .ok _, .error _ => isFalse (by simp)
  | .error _, .ok _ => isFalse (by simp)

instance : DecidableEq (Except String (List Message × List ChatEvent)) := fun a b =>
  match a, b with
  | .ok x, .ok y => decidable_of_iff (x = y) (by simp)
  | .error e, .error f => decidable_of_iff (e = f) (by simp)
  | .ok _, .error _ => isFalse (by simp)
  | .error _, .ok _ => isFalse (by simp)

/-- fetchMessages of the Supabase App (`src/App.tsx` lines 207-220): the
snapshot query filters the message table to the active scope and sorts
ascending by `created_at`; its result replaces the Live View wholesale via
`setMessages(data)`. The database's sort is embedded as an insertion sort on
the non-strict timestamp order. -/
def fetchMessages (store : List Message) (scope : Scope) : List Message :=
  List.insertionSort createdLE (store.filter (scopeFilter scope))

/-- Client synchronizer state of the Supabase App: the active scope (derived
from `view`/`activeRoom`) and the `messages` state holding the Live View. -/
structure ClientState where
  scope : Scope
  messages : List Message
deriving Repr, DecidableEq

/-- Scope switch (the `useEffect` on `[view, activeRoom]`, `src/App.tsx` lines
222-243): the new scope becomes active and a snapshot fetch for it is issued;
the fetch's completion is a separate, asynchronously delivered step
(`applySnapshotCompletion`). Nothing records which fetch is current: the
source tracks no token and does not cancel in-flight fetches. -/
def activateScope (s : Scope) (st : ClientState) : ClientState :=
  { st with scope := s }

/-- Delivery of a snapshot fetch completion (`const { data } = await query;
if (data) setMessages(data)` in `fetchMessages`): the Live View is replaced
with the snapshot of the scope the fetch was issued for, unconditionally —
the source checks no token and never compares the fetch's scope with the
currently active one. -/
def applySnapshotCompletion (store : List Message) (fetchedScope : Scope)
    (st : ClientState) : ClientState :=
  { st with messages := fetchMessages store fetchedScope }

/-- INSERT handler of the Supabase realtime channel (`src/App.tsx` lines
228-235): the new row is appended iff it matches the active scope (null
`room_id` while viewing public, the active room's id while viewing a room). -/
def supabaseInsertHandler (st : ClientState) (newMsg : Message) : ClientState :=
  match st.scope with
  | .publicChat =>
    if !jsTruthy newMsg.room_id then
      { st with messages := st.messages ++ [newMsg] }
    else st
  | .privateRoom rid =>
    if newMsg.room_id == some rid then
      { st with messages := st.messages ++ [newMsg] }
    else st

/-- DELETE handler of the Supabase realtime channel (`src/App.tsx` lines
236-238): the view is filtered by id unconditionally (an id absent from the
view makes this a no-op). -/
def supabaseDeleteHandler (st : ClientState) (oldId : String) : ClientState :=
  { st with messages := st.messages.filter fun m => m.id ≠ oldId }

/-! ### Concrete fixtures for counterexamples and witnesses -/

/-- Room fixture: stored key is the uppercase string the mock generator
produces. -/
def roomFixtureA : Room :=
  { id := "RM-AAAAAA", key := "ABCDEF", name := "ops", creator_id := "alice"
    created_at := "2024-01-01T00:00:00.000Z" }

/-- Room fixture for the key-rotation scenario. -/
def roomFixtureB : Room :=
  { id := "RM-BBBBBB", key := "OLDKEY", name := "ops2", creator_id := "alice"
    created_at := "2024-01-01T00:00:00.000Z" }

/-- Message fixture authored by alice in the public channel. -/
def msgFixtureA : Message :=
  { id := "MSG00001", user_id := "alice", username := "alice", content := "hello"
    created_at := "2024-01-01T00:00:01.000Z", room_id := none }

/-- Second public message fixture, same `created_at` as `msgFixtureB2`. -/
def msgFixtureB1 : Message :=
  { id := "MSG00002", user_id := "bob", username := "bob", content := "first"
    created_at := "2024-01-01T00:00:02.000Z", room_id := none }

/-- Public message fixture sharing its timestamp with `msgFixtureB1`. -/
def msgFixtureB2 : Message :=
  { id := "MSG00003", user_id := "carol", username := "carol", content := "second"
    created_at := "2024-01-01T00:00:02.000Z", room_id := none }

/-- Message fixture living in the private room `RM-PRIV01`. -/
def msgFixturePriv : Message :=
  { id := "MSG00004", user_id := "bob", username := "bob", content := "secret"
    created_at := "2024-01-01T00:00:03.000Z", room_id := some "RM-PRIV01" }

/-- Message fixture in room `RM-XXXXXX`, for the stale-fetch scenario. -/
def msgFixtureRoomX : Message :=
  { id := "MSG00005", user_id := "alice", username := "alice", content := "in X"
    created_at := "2024-01-01T00:00:04.000Z", room_id := some "RM-XXXXXX" }

/-- Message fixture in room `RM-YYYYYY`, for the stale-fetch scenario. -/
def msgFixtureRoomY : Message :=
  { id := "MSG00006", user_id := "bob", username := "bob", content := "in Y"
    created_at := "2024-01-01T00:00:05.000Z", room_id := some "RM-YYYYYY" }

/-- Projection of a room to every field except its access key, used to state
which fields an operation leaves unchanged. -/
def stripKey (r : Room) : String × String × String × String :=
  (r.id, r.name, r.creator_id, r.created_at)

/-! ### Helper lemmas -/

/-- Inversion of a successful `updateRoomKey` call: the resulting store finds
the returned room first under the same id, the returned room carries the new
key, and every non-key field of every room is preserved. -/
theorem updateRoomKey_ok_inv {rooms : List Room} {roomId u k : String}
    {r : Room} {rooms2 : List Room}
    (h : updateRoomKey rooms roomId u k = .ok (r, rooms2)) :
    rooms2.find? (fun x => x.id == roomId) = some r ∧ r.key = k ∧
      rooms2.map stripKey = rooms.map stripKey := by
  induction rooms generalizing rooms2 with
  | nil => simp [updateRoomKey] at h
  | cons r0 rs ih =>
    by_cases h0 : r0.id = roomId
    · by_cases hc : r0.creator_id = u
      · have hru : updateRoomKey (r0 :: rs) roomId u k
            = .ok ({ r0 with key := k }, { r0 with key := k } :: rs) := by
          simp [updateRoomKey, h0, hc]
        rw [hru] at h
        injection h with h2
        injection h2 with hr hrs
        subst hr
        subst hrs
        refine ⟨?_, rfl, by simp [stripKey]⟩
        rw [List.find?_cons_of_pos _ (by simp [h0])]
      · simp [updateRoomKey, h0, hc] at h
    · simp only [updateRoomKey, if_neg h0] at h
      cases hrec : updateRoomKey rs roomId u k with
      | error e => rw [hrec] at h; simp [Except.map] at h
      | ok p =>
        rw [hrec] at h
        simp only [Except.map] at h
        injection h with h2
        injection h2 with hr hrs
        subst hr
        subst hrs
        obtain ⟨hfind, hkey, hmap⟩ := ih (by rw [hrec])
        refine ⟨?_, hkey, by simp [hmap]⟩
        rw [List.find?_cons_of_neg _ (by simp [h0])]
        exact hfind

/-- A found room whose creator matches lets `updateRoomKey` succeed, returning
that room with only the key replaced. -/
theorem updateRoomKey_ok_of_found {rooms : List Room} {roomId u k : String}
    {r0 : Room}
    (hfind : rooms.find? (fun x => x.id == roomId) = some r0)
    (hc : r0.creator_id = u) :
    updateRoomKey rooms roomId u k
      = .ok ({ r0 with key := k }, updateRoomKeyStore rooms roomId u k) := by
  induction rooms with
  | nil => simp [List.find?] at hfind
  | cons r1 rs ih =>
    by_cases h0 : r1.id = roomId
    · rw [List.find?_cons_of_pos _ (by simp [h0])] at hfind
      obtain rfl : r1 = r0 := by injection hfind
      simp [updateRoomKey, updateRoomKeyStore, if_pos h0, hc]
    · rw [List.find?_cons_of_neg _ (by simp [h0])] at hfind
      have hrec := ih hfind
      have hmain : updateRoomKey (r1 :: rs) roomId u k
          = .ok ({ r0 with key := k }, r1 :: updateRoomKeyStore rs roomId u k) := by
        simp only [updateRoomKey, if_neg h0, hrec, Except.map]
      rw [hmain]
      simp [updateRoomKeyStore, hmain]

/-- Failure cases of `updateRoomKey`: a missing room id and a non-creator
requester. -/
theorem updateRoomKey_error_cases (rooms : List Room) (roomId u k : String) :
    ((∀ r ∈ rooms, r.id ≠ roomId) →
       updateRoomKey rooms roomId u k = .error "ROOM_NOT_FOUND") ∧
    (∀ r0, rooms.find? (fun x => x.id == roomId) = some r0 → r0.creator_id ≠ u →
       updateRoomKey rooms roomId u k = .error "UNAUTHORIZED") := by
  induction rooms with
  | nil => exact ⟨fun _ => rfl, fun r0 h => by simp [List.find?] at h⟩
  | cons r1 rs ih =>
    constructor
    · intro hall
      have h0 : r1.id ≠ roomId := hall r1 (List.mem_cons_self ..)
      simp only [updateRoomKey, if_neg h0]
      rw [ih.1 fun r hr => hall r (List.mem_cons_of_mem _ hr)]
      rfl
    · intro r0 hfind hcr
      by_cases h0 : r1.id = roomId
      · rw [List.find?_cons_of_pos _ (by simp [h0])] at hfind
        obtain rfl : r1 = r0 := by injection hfind
        simp [updateRoomKey, if_pos h0, if_pos hcr]
      · rw [List.find?_cons_of_neg _ (by simp [h0])] at hfind
        simp only [updateRoomKey, if_neg h0]
        rw [ih.2 r0 hfind hcr]
        rfl

/-- An error result leaves the room store untouched (the source throws before
mutating). -/
theorem updateRoomKeyStore_of_error {rooms : List Room} {roomId u k e : String}
    (h : updateRoomKey rooms roomId u k = .error e) :
    updateRoomKeyStore rooms roomId u k = rooms := by
  simp [updateRoomKeyStore, h]

/-! ### C3 -/

/-- C3: `rotateKey` (`updateRoomKey`) fails with `ROOM_NOT_FOUND` when no room
with the given id exists, fails with `UNAUTHORIZED` when the requester is not
the room's creator — leaving the store, and in particular the stored access
key, unchanged — and otherwise returns the found room with only its key
overwritten, every room's id, name, creator and created_at being preserved. -/
theorem updateRoomKey_spec (rooms : List Room) (roomId u k : String) :
    ((∀ r ∈ rooms, r.id ≠ roomId) →
       updateRoomKey rooms roomId u k = .error "ROOM_NOT_FOUND") ∧
    (∀ r0, rooms.find? (fun x => x.id == roomId) = some r0 → r0.creator_id ≠ u →
       updateRoomKey rooms roomId u k = .error "UNAUTHORIZED" ∧
       updateRoomKeyStore rooms roomId u k = rooms) ∧
    (∀ r0, rooms.find? (fun x => x.id == roomId) = some r0 → r0.creator_id = u →
       updateRoomKey rooms roomId u k
           = .ok ({ r0 with key := k }, updateRoomKeyStore rooms roomId u k) ∧
       (updateRoomKeyStore rooms roomId u k).map stripKey
           = rooms.map stripKey) := by
  refine ⟨(updateRoomKey_error_cases rooms roomId u k).1, ?_, ?_⟩
  · intro r0 hfind hcr
    have he := (updateRoomKey_error_cases rooms roomId u k).2 r0 hfind hcr
    exact ⟨he, updateRoomKeyStore_of_error he⟩
  · intro r0 hfind hc
    have hok := @updateRoomKey_ok_of_found rooms roomId u k r0 hfind hc
    exact ⟨hok, (updateRoomKey_ok_inv hok).2.2⟩

/-- C3 witness: a concrete rotation by the creator succeeds with only the key
replaced, and a rotation attempt by a non-creator is rejected with the store
unchanged. -/
theorem updateRoomKey_spec_witness :
    (updateRoomKey [roomFixtureB] "RM-BBBBBB" "mallory" "HACKED"
         = .error "UNAUTHORIZED" ∧
       updateRoomKeyStore [roomFixtureB] "RM-BBBBBB" "mallory" "HACKED"
         = [roomFixtureB]) ∧
    updateRoomKey [roomFixtureB] "RM-BBBBBB" "alice" "NEWKEY"
        = .ok ({ roomFixtureB with key := "NEWKEY" },
            updateRoomKeyStore [roomFixtureB] "RM-BBBBBB" "alice" "NEWKEY") :=
  ⟨(updateRoomKey_spec [roomFixtureB] "RM-BBBBBB" "mallory" "HACKED").2.1
      roomFixtureB (by decide) (by decide),
    ((updateRoomKey_spec [roomFixtureB] "RM-BBBBBB" "alice" "NEWKEY").2.2
      roomFixtureB (by decide) (by decide)).1⟩

/-! ### C4 -/

/-- C4: message deletion succeeds only for the authoring identity. For a
store with pairwise distinct message ids containing a message `M`, a delete
attempt on `M.id` by any account other than the author throws
`UNAUTHORIZED_DELETE` and leaves the store unchanged, while the author's own
delete removes exactly that message from the store. -/
theorem deleteMessage_author_only (msgs : List Message) (M : Message)
    (B : String) (hids : List.Pairwise (fun a b => a.id ≠ b.id) msgs)
    (hM : M ∈ msgs) :
    (B ≠ M.user_id →
       deleteMessage msgs M.id B = .error "UNAUTHORIZED_DELETE" ∧
       deleteMessageStore msgs M.id B = msgs) ∧
    ∃ l1 l2, msgs = l1 ++ M :: l2 ∧
      deleteMessage msgs M.id M.user_id
        = .ok (l1 ++ l2, [.deleteMessage M.id M.room_id]) ∧
      M ∉ l1 ++ l2 := by
  induction msgs with
  | nil => cases hM
  | cons m ms ih =>
    have hm : ∀ b ∈ ms, m.id ≠ b.id := fun b hb => List.rel_of_pairwise_cons hids hb
    have hpw : List.Pairwise (fun a b => a.id ≠ b.id) ms := hids.of_cons
    rcases List.mem_cons.mp hM with rfl | hMms
    · constructor
      · intro hB
        have hB2 : M.user_id ≠ B := fun h => hB h.symm
        have hdel : deleteMessage (M :: ms) M.id B = .error "UNAUTHORIZED_DELETE" := by
          simp [deleteMessage, hB2]
        exact ⟨hdel, by simp [deleteMessageStore, hdel]⟩
      · refine ⟨[], ms, rfl, by simp [deleteMessage], ?_⟩
        intro hmem
        exact hm M hmem rfl
    · have hne : m.id ≠ M.id := hm M hMms
      obtain ⟨ihB, l1, l2, hsplit, hdel, hnotin⟩ := ih hpw hMms
      constructor
      · intro hB
        obtain ⟨hdelB, hstoreB⟩ := ihB hB
        have hdel2 : deleteMessage (m :: ms) M.id B = .error "UNAUTHORIZED_DELETE" := by
          simp [deleteMessage, hne, hdelB, Except.map]
        refine ⟨hdel2, by simp [deleteMessageStore, hdel2]⟩
      · refine ⟨m :: l1, l2, by rw [hsplit]; rfl, ?_, ?_⟩
        · simp [deleteMessage, hne, hdel, Except.map]
        · intro hmem
          rcases List.mem_cons.mp hmem with rfl | hmem2
          · exact hne rfl
          · exact hnotin hmem2

/-- C4 witness: in a concrete two-message store, bob cannot delete alice's
message (store unchanged), while alice's own delete removes it. -/
theorem deleteMessage_author_only_witness :
    deleteMessage [msgFixtureA, msgFixtureB1] "MSG00001" "bob"
        = .error "UNAUTHORIZED_DELETE" ∧
      deleteMessageStore [msgFixtureA, msgFixtureB1] "MSG00001" "bob"
        = [msgFixtureA, msgFixtureB1] :=
  (deleteMessage_author_only [msgFixtureA, msgFixtureB1] msgFixtureA "bob"
      (by decide) (by decide)).1 (by decide)

/-! ### C10 -/

/-- C10: deleting a message whose id is not present in the store is a silent
no-op — `deleteMessage` returns normally (no error is thrown), emits no event
to subscribers, and leaves the store unchanged. -/
theorem deleteMessage_missing_id_noop (msgs : List Message)
    (messageId userId : String) (h : ∀ m ∈ msgs, m.id ≠ messageId) :
    deleteMessage msgs messageId userId = .ok (msgs, []) := by
  induction msgs with
  | nil => rfl
  | cons m ms ih =>
    have h0 : m.id ≠ messageId := h m (List.mem_cons_self ..)
    have hrec := ih fun x hx => h x (List.mem_cons_of_mem _ hx)
    simp [deleteMessage, h0, hrec, Except.map]

/-- C10 witness: deleting an absent id from a concrete one-message store
returns the store unchanged with no event. -/
theorem deleteMessage_missing_id_noop_witness :
    deleteMessage [msgFixtureA] "MISSING1" "bob" = .ok ([msgFixtureA], []) :=
  deleteMessage_missing_id_noop [msgFixtureA] "MISSING1" "bob" (by decide)

/-! ### C1 -/

/-- C1 counterexample: the claim says the join check succeeds iff the supplied
key exactly equals, case-sensitively and with no normalization by the
controller, the room's access key. On the source it is false:
`validateRoomAccess` compares against `key.toUpperCase()`, so the lowercase
key `"abcdef"` joins a room whose stored key is `"ABCDEF"` even though the
two strings differ. -/
theorem joinRoom_case_insensitive_counterexample :
    validateRoomAccess [roomFixtureA] "RM-AAAAAA" "abcdef" = true ∧
    roomFixtureA.key = "ABCDEF" ∧ "abcdef" ≠ "ABCDEF" := by
  refine ⟨by decide, rfl, by decide⟩

/-- C1 amended: `validateRoomAccess` succeeds iff a room with the given id is
found and its current access key equals the uppercased supplied key; it
returns false when no room exists (the mock signals no distinct error); and
after a successful `updateRoomKey`, a supplied key succeeds on the very next
join iff its uppercasing equals the new key — so the old key fails whenever
its uppercasing differs from the new key, and the new key itself succeeds iff
it is unchanged by uppercasing. -/
theorem validateRoomAccess_key_match_amended :
    (∀ (rooms : List Room) (roomId key : String),
       validateRoomAccess rooms roomId key = true ↔
         ∃ r, rooms.find? (fun x => x.id == roomId) = some r ∧
           r.key = jsToUpperCase key) ∧
    (∀ (rooms : List Room) (roomId u newKey : String) (r : Room)
       (rooms2 : List Room) (key : String),
       updateRoomKey rooms roomId u newKey = .ok (r, rooms2) →
         (validateRoomAccess rooms2 roomId key = true ↔
           jsToUpperCase key = newKey)) := by
  have hgen : ∀ (rooms : List Room) (roomId key : String),
      validateRoomAccess rooms roomId key = true ↔
        ∃ r, rooms.find? (fun x => x.id == roomId) = some r ∧
          r.key = jsToUpperCase key := by
    intro rooms roomId key
    unfold validateRoomAccess
    cases hfind : rooms.find? (fun x => x.id == roomId) with
    | none => simp
    | some room => simp [beq_iff_eq]
  refine ⟨hgen, ?_⟩
  intro rooms roomId u newKey r rooms2 key hok
  obtain ⟨hfind, hkey, _⟩ := updateRoomKey_ok_inv hok
  rw [hgen]
  constructor
  · rintro ⟨r2, hfind2, hkey2⟩
    rw [hfind] at hfind2
    injection hfind2 with hr2
    rw [← hkey2, ← hr2, hkey]
  · intro hup
    exact ⟨r, hfind, by rw [hkey, hup]⟩

/-- C1 witness: rotating the key of a concrete room to `"NEWKEY"` makes the
very next join succeed with `"NEWKEY"` and fail with the old key
`"OLDKEY"`. -/
theorem validateRoomAccess_key_match_witness :
    validateRoomAccess [{ roomFixtureB with key := "NEWKEY" }] "RM-BBBBBB" "NEWKEY" = true ∧
    validateRoomAccess [{ roomFixtureB with key := "NEWKEY" }] "RM-BBBBBB" "OLDKEY" = false := by
  have h := validateRoomAccess_key_match_amended.2 [roomFixtureB] "RM-BBBBBB"
    "alice" "NEWKEY" { roomFixtureB with key := "NEWKEY" }
    [{ roomFixtureB with key := "NEWKEY" }]
  constructor
  · exact (h "NEWKEY" (by decide)).mpr (by decide)
  · cases hv : validateRoomAccess [{ roomFixtureB with key := "NEWKEY" }] "RM-BBBBBB" "OLDKEY" with
    | false => rfl
    | true => exact absurd ((h "OLDKEY" (by decide)).mp hv) (by decide)

/-! ### C5 -/

/-- C5 counterexample: the claim says `createRoom` fails with a
`ValidationError` when the name is empty. On the source it is false:
`RoomService.createRoom` performs no validation at all — called with the
empty name it persists and returns a room whose name is empty. -/
theorem createRoom_empty_name_counterexample :
    (createRoom [] "ABC123XYZ" "KEY001" "alice" "" "t0").2
        = [(createRoom [] "ABC123XYZ" "KEY001" "alice" "" "t0").1] ∧
    (createRoom [] "ABC123XYZ" "KEY001" "alice" "" "t0").1.name = "" := by
  exact ⟨rfl, rfl⟩

/-- C5 amended: the service-level `createRoom` never fails — it persists and
returns a new room for every name, the empty name included; the empty-name
case is instead prevented by the caller (`handleCreateRoom`), which silently
returns without any persistence side effect when the input trims to the empty
string, and for a non-empty trimmed name persists exactly one new room. -/
theorem createRoom_empty_name_amended (u : User) (input : String)
    (rooms : List Room) (genId genKey now : String) :
    (jsTrim input = "" →
       handleCreateRoom (some u) input rooms genId genKey now = rooms) ∧
    (jsTrim input ≠ "" →
       handleCreateRoom (some u) input rooms genId genKey now
         = rooms ++ [(createRoom rooms genId genKey u.id (jsTrim input) now).1]) ∧
    (∀ name, (createRoom rooms genId genKey u.id name now).2
       = rooms ++ [(createRoom rooms genId genKey u.id name now).1]) := by
  refine ⟨fun h => by simp [handleCreateRoom, h], fun h => ?_, fun name => rfl⟩
  simp [handleCreateRoom, h, createRoom]

/-- C5 witness: a whitespace-only room name leaves the store untouched, while
the name `"ops"` persists exactly one new room. -/
theorem createRoom_empty_name_amended_witness :
    handleCreateRoom (some { id := "alice" }) "   " [] "G1G1G1G1G" "K1K1K1" "t0" = [] ∧
    handleCreateRoom (some { id := "alice" }) "ops" [] "G1G1G1G1G" "K1K1K1" "t0"
      = [] ++ [(createRoom [] "G1G1G1G1G" "K1K1K1" "alice" (jsTrim "ops") "t0").1] :=
  ⟨(createRoom_empty_name_amended { id := "alice" } "   " [] "G1G1G1G1G" "K1K1K1" "t0").1
      (by decide),
    (createRoom_empty_name_amended { id := "alice" } "ops" [] "G1G1G1G1G" "K1K1K1" "t0").2.1
      (by decide)⟩

/-! ### C9 -/

/-- C9 counterexample: the claim says ids of distinct rooms produced by
`createRoom` always differ. On the source it is false: id generation is an
unchecked pseudorandom draw, so when `generateId` returns the same string in
two calls the two distinct rooms carry the same id. -/
theorem room_id_collision_counterexample :
    ((createRoom ((createRoom [] "DUPID9ABC" "KEY111" "alice" "room-a" "t1").2)
        "DUPID9ABC" "KEY222" "bob" "room-b" "t2").1.id
      = (createRoom [] "DUPID9ABC" "KEY111" "alice" "room-a" "t1").1.id) ∧
    (createRoom ((createRoom [] "DUPID9ABC" "KEY111" "alice" "room-a" "t1").2)
        "DUPID9ABC" "KEY222" "bob" "room-b" "t2").1
      ≠ (createRoom [] "DUPID9ABC" "KEY111" "alice" "room-a" "t1").1 := by
  exact ⟨rfl, by decide⟩

/-- C9 amended: a created room's id is `RM-` plus the first six characters of
the generated string — so two creations whose generated prefixes differ get
distinct ids, but no check prevents equal draws; `createRoom` appends the new
room without touching existing ones; and no operation changes an existing
room's id or creator: `updateRoomKey` preserves `(id, creator_id)` of every
stored room whether it succeeds or fails. -/
theorem room_id_generation_amended (rooms rooms2 : List Room)
    (genId genKey creatorId name now g2 k2 c2 n2 t2 : String)
    (roomId u k : String) :
    (createRoom rooms genId genKey creatorId name now).1.id
        = "RM-" ++ jsSubstringTo genId 6 ∧
    (createRoom rooms genId genKey creatorId name now).2
        = rooms ++ [(createRoom rooms genId genKey creatorId name now).1] ∧
    (jsSubstringTo genId 6 ≠ jsSubstringTo g2 6 →
       (createRoom rooms genId genKey creatorId name now).1.id
         ≠ (createRoom rooms2 g2 k2 c2 n2 t2).1.id) ∧
    (updateRoomKeyStore rooms roomId u k).map (fun r => (r.id, r.creator_id))
        = rooms.map (fun r => (r.id, r.creator_id)) := by
  refine ⟨rfl, rfl, fun hne => ?_, ?_⟩
  · intro heq
    apply hne
    have h2 : ("RM-" ++ jsSubstringTo genId 6).data
        = ("RM-" ++ jsSubstringTo g2 6).data := congrArg String.data heq
    simp [String.data_append] at h2
    exact String.ext h2
  · cases hres : updateRoomKey rooms roomId u k with
    | error e =>
      rw [updateRoomKeyStore_of_error hres]
    | ok p =>
      have hmap := (@updateRoomKey_ok_inv rooms roomId u k p.1 p.2
        (by rw [hres])).2.2
      have hstore : updateRoomKeyStore rooms roomId u k = p.2 := by
        simp [updateRoomKeyStore, hres]
      rw [hstore]
      have h1 := congrArg (List.map (fun q : String × String × String × String =>
        (q.1, q.2.2.1))) hmap
      simpa [stripKey, Function.comp] using h1

/-- C9 witness: two creations with distinct generated prefixes yield distinct
room ids. -/
theorem room_id_generation_witness :
    (createRoom [] "AAAAAAZZZ" "KEY111" "alice" "room-a" "t1").1.id
      ≠ (createRoom [] "BBBBBBZZZ" "KEY222" "bob" "room-b" "t2").1.id :=
  (room_id_generation_amended [] [] "AAAAAAZZZ" "KEY111" "alice" "room-a" "t1"
    "BBBBBBZZZ" "KEY222" "bob" "room-b" "t2" "RM-X" "alice" "K").2.2.1 (by decide)

/-! ### C6 -/

/-- C6: a Public-scope send whose trimmed text starts, case-insensitively,
with `/ai` appends exactly one additional message beyond the user's own — the
assistant reply, authored by the sentinel sender `AI_CORE` with `is_ai = true`
and `room_id = null`, carrying whatever string `getGeminiResponse` produced;
a failing backend call is converted by `getGeminiResponse` into the fixed
diagnostic string, so the reply slot carries that diagnostic and no exception
reaches the send path (every function on this path is total); and in a
private-room send no assistant message is produced at all. -/
theorem assistant_public_path_spec (u : User) (activeRoom : Option Room)
    (messageInput : String) (msgs : List Message) (hasKey : Bool)
    (outcome : GeminiOutcome) (idUser idAi nowUser nowAi : String)
    (h1 : jsTrim messageInput ≠ "")
    (h2 : jsStartsWith (jsToLowerCase (jsTrim messageInput)) "/ai" = true) :
    (handleSendMessage .publicChat activeRoom (some u) messageInput msgs hasKey
        outcome idUser idAi nowUser nowAi).1
      = msgs ++
        [{ id := idUser, user_id := u.id, username := (Sender.user u).displayName,
           content := jsTrim messageInput, created_at := nowUser, room_id := none },
         { id := idAi, user_id := "AI_CORE", username := "AI_CORE",
           content := getGeminiResponse hasKey outcome
             (jsTrim (stringReplaceFirst (jsTrim messageInput) "/ai")),
           created_at := nowAi, room_id := none, is_ai := true }] ∧
    (∀ p, getGeminiResponse true .failure p
        = "SYSTEM ERROR: UNABLE TO CONNECT TO AI CORE.") ∧
    (∀ room, (handleSendMessage .privateRoom (some room) (some u) messageInput
        msgs hasKey outcome idUser idAi nowUser nowAi).1
      = msgs ++
        [{ id := idUser, user_id := u.id, username := (Sender.user u).displayName,
           content := jsTrim messageInput, created_at := nowUser,
           room_id := some room.id }]) := by
  refine ⟨?_, fun p => rfl, fun room => ?_⟩
  · simp [handleSendMessage, h1, h2, sendPublicMessage, Sender.senderId,
      Sender.displayName]
  · simp [handleSendMessage, h1, sendPrivateMessage]

/-- C6 witness: the public message `"/AI ping"` (case-insensitive prefix
match) with a failing backend yields the user's message plus exactly one
assistant message carrying the fixed diagnostic. -/
theorem assistant_public_path_witness :
    (handleSendMessage .publicChat none
        (some { id := "alice", username := some "alice" }) "/AI ping" [] true
        .failure "ID1" "ID2" "t1" "t2").1
      = [{ id := "ID1", user_id := "alice", username := "alice",
           content := "/AI ping", created_at := "t1", room_id := none },
         { id := "ID2", user_id := "AI_CORE", username := "AI_CORE",
           content := "SYSTEM ERROR: UNABLE TO CONNECT TO AI CORE.",
           created_at := "t2", room_id := none, is_ai := true }] := by
  have h := assistant_public_path_spec { id := "alice", username := some "alice" }
    none "/AI ping" [] true .failure "ID1" "ID2" "t1" "t2" (by decide) (by decide)
  rw [h.1]
  decide

/-! ### C7 -/

/-- C7 counterexample: the claim requires the snapshot to be in strict
ascending `created_at` order. With two public messages sharing a timestamp —
reachable, since the mock stamps messages with the current millisecond and
the database column is not unique — the snapshot contains both, so strict
ascending order fails (only non-decreasing order holds). -/
theorem snapshot_strict_order_counterexample :
    fetchMessages [msgFixtureB1, msgFixtureB2] .publicChat
        = [msgFixtureB1, msgFixtureB2] ∧
    ¬ List.Pairwise createdLT
        (fetchMessages [msgFixtureB1, msgFixtureB2] .publicChat) ∧
    msgFixtureB1 ≠ msgFixtureB2 ∧
    msgFixtureB1.created_at = msgFixtureB2.created_at := by
  refine ⟨by decide, ?_, by decide, rfl⟩
  rw [(by decide : fetchMessages [msgFixtureB1, msgFixtureB2] .publicChat
      = [msgFixtureB1, msgFixtureB2])]
  intro h
  exact absurd (List.rel_of_pairwise_cons h (List.mem_cons_self ..)) (by decide)

/-- C7 amended: activating a scope replaces the Live View wholesale with a
snapshot that is a permutation of exactly the store's messages of that scope
(`room_id` null for Public, the given room id for a room), in non-decreasing —
rather than strict — `created_at` order. -/
theorem fetchMessages_sorted_amended (store : List Message) (scope : Scope) :
    List.Perm (fetchMessages store scope) (store.filter (scopeFilter scope)) ∧
    List.Sorted createdLE (fetchMessages store scope) ∧
    ∀ m, m ∈ fetchMessages store scope ↔
      m ∈ store ∧ scopeFilter scope m = true := by
  refine ⟨List.perm_insertionSort _ _, List.sorted_insertionSort _ _, fun m => ?_⟩
  simp only [fetchMessages]
  rw [(List.perm_insertionSort _ _).mem_iff, List.mem_filter]

/-! ### C8 -/

/-- C8 counterexample: the claim says a completion belonging to an earlier
scope never replaces the Live View of the currently active scope, enforced by
a monotonically increasing scope token. On the source it is false: no token
exists, and after activating Room X, then Room Y, a late-arriving completion
of the Room X snapshot overwrites the view with Room X's messages while
Room Y is active. -/
theorem stale_completion_counterexample :
    (applySnapshotCompletion [msgFixtureRoomX, msgFixtureRoomY]
        (.privateRoom "RM-XXXXXX")
        (activateScope (.privateRoom "RM-YYYYYY")
          (activateScope (.privateRoom "RM-XXXXXX")
            { scope := .publicChat, messages := [] }))).scope
      = .privateRoom "RM-YYYYYY" ∧
    (applySnapshotCompletion [msgFixtureRoomX, msgFixtureRoomY]
        (.privateRoom "RM-XXXXXX")
        (activateScope (.privateRoom "RM-YYYYYY")
          (activateScope (.privateRoom "RM-XXXXXX")
            { scope := .publicChat, messages := [] }))).messages
      = [msgFixtureRoomX] ∧
    fetchMessages [msgFixtureRoomX, msgFixtureRoomY] (.privateRoom "RM-YYYYYY")
      = [msgFixtureRoomY] ∧
    ([msgFixtureRoomX] : List Message) ≠ [msgFixtureRoomY] := by
  refine ⟨rfl, by decide, by decide, by decide⟩

/-- C8 amended: the implementation tracks no scope token and performs no
staleness check — delivering a snapshot completion unconditionally replaces
the Live View with the snapshot of the scope the fetch was issued for,
regardless of which scope is active at delivery time, so the view after a
stale completion is the earlier scope's snapshot (last-completion-wins rather
than last-scope-wins). -/
theorem completion_last_write_wins_amended (store : List Message)
    (st : ClientState) (s s2 : Scope) :
    (applySnapshotCompletion store s st).messages = fetchMessages store s ∧
    (applySnapshotCompletion store s st).scope = st.scope ∧
    applySnapshotCompletion store s (activateScope s2 st)
      = { scope := s2, messages := fetchMessages store s } :=
  ⟨rfl, rfl, rfl⟩

/-! ### C2 -/

/-- C2: the claim — an insert event is applied to the Live View iff the
message's `room_id` matches the active scope, so a private-room insert never
appears in the Public view — is what the code intends, but the mock App's
subscription handler reads `msg.roomId` while the `Message` interface and the
mock backend define the field `room_id`; the access yields `undefined`, every
insert is therefore treated as public, and a private-room message is appended
to the Public Live View. This theorem evaluates the handler at the failing
input: viewing Public (`activeRoomRef = null`), an insert for the private
room `RM-PRIV01` lands in `publicMessages`. -/
theorem mock_insert_handler_misroutes_private_message :
    mockSubscribeHandler none { publicMessages := [], privateMessages := [] }
        (.newMessage msgFixturePriv)
      = { publicMessages := [msgFixturePriv], privateMessages := [] } ∧
    msgFixturePriv.room_id = some "RM-PRIV01" :=
  ⟨rfl, rfl⟩

end Kraz
